import Mathlib

/-!
Shallow embedding of the `state-management-in-vue` utility modules:
`src/utils/ProvideInject2.ts` (provideTheme / injectTheme), `src/utils/useProduct.ts`
(useProduct), `src/utils/useMyUser.ts` (useMyUser), `src/utils/userLogin.ts`
(loggedInUser / isLoggedIn / login), `src/utils/fetchProduct.ts` (fetchProduct) and
`src/utils/fetchMyUser.ts` (fetchMyUser).

External collaborators are modelled as the spec describes them: the framework's
reactive cell is explicit state passing, provide/inject is a scoped key-value
context from ancestors to descendants, the external useSWR cache utility is an
arbitrary function producing a data/error pair, and the id generator nanoid is a
counter drawing fresh identifiers.
-/

namespace StateMgmt

/-- An observable step of an async computation: a console log or an awaited delay. -/
inductive AsyncEvent where
  | log (msg : String)
  | wait (ms : Nat)
deriving DecidableEq

/-- An async computation: the sequence of observable events it performs and its
outcome (a resolved value, or a rejection message). -/
structure Async (α : Type) where
  events : List AsyncEvent
  outcome : Except String α

/-- An async computation that immediately resolves. -/
def Async.pure {α : Type} (a : α) : Async α := ⟨[], Except.ok a⟩

/-- Sequencing of async computations: `await x` then continue with `f`; a rejection
of `x` propagates and the continuation never runs. -/
def Async.bind {α β : Type} (x : Async α) (f : α → Async β) : Async β :=
  match x.outcome with
  | Except.ok a => ⟨x.events ++ (f a).events, (f a).outcome⟩
  | Except.error e => ⟨x.events, Except.error e⟩

/-- Modelled from the spec: `src/utils/delay.ts` is imported by the fetch functions
but absent from the repository snapshot; the spec calls it "a simulated network
delay". It records one wait event of the given milliseconds and resolves. -/
def delay (ms : Nat) : Async Unit := ⟨[AsyncEvent.wait ms], Except.ok ()⟩

/-- console.log, recorded as a log event. -/
def consoleLog (msg : String) : Async Unit := ⟨[AsyncEvent.log msg], Except.ok ()⟩

/-- The delays awaited by an async computation, in order. -/
def delaysOf {α : Type} (x : Async α) : List Nat :=
  x.events.filterMap (fun e => match e with | AsyncEvent.wait ms => some ms | AsyncEvent.log _ => none)

/-- The object literal returned by fetchProduct. -/
structure Product where
  productId : Int
  productName : String
deriving DecidableEq

/-- src/utils/fetchProduct.ts: log, await delay(1000), return the product object. -/
def fetchProduct (productId : Int) : Async Product :=
  (consoleLog ("fetchProduct " ++ toString productId)).bind fun _ =>
  (delay 1000).bind fun _ =>
  Async.pure { productId := productId, productName := "Super Product #" ++ toString productId }

/-- The object literal returned by fetchMyUser. -/
structure User where
  username : String
deriving DecidableEq

/-- src/utils/fetchMyUser.ts: log, await delay(1000), return the user object. -/
def fetchMyUser : Async User :=
  (consoleLog "fetchMyUser").bind fun _ =>
  (delay 1000).bind fun _ =>
  Async.pure { username := "Super USER!" }

/-- State of the userLogin module: the `loggedInUser` ref, which starts out
holding `undefined` (none). -/
structure UserLoginState where
  loggedInUser : Option User
deriving DecidableEq

/-- src/utils/userLogin.ts: `export const loggedInUser = ref()`. -/
def initialUserLoginState : UserLoginState := ⟨none⟩

/-- src/utils/userLogin.ts: `computed(() => loggedInUser.value !== undefined)`,
as a function of the module state. -/
def isLoggedIn (s : UserLoginState) : Bool := decide (s.loggedInUser ≠ none)

/-- src/utils/userLogin.ts: `login` awaits fetchMyUser and assigns the result to
`loggedInUser.value`; the resolved value is the updated module state. -/
def login (s : UserLoginState) : Async UserLoginState :=
  fetchMyUser.bind fun u => Async.pure { s with loggedInUser := some u }

/-- The state transition of a resolved `login()` call; on a rejection the
assignment never runs and the state is unchanged. -/
def loginStep (s : UserLoginState) : UserLoginState :=
  match (login s).outcome with
  | Except.ok s2 => s2
  | Except.error _ => s

/-- The mutating operations exported by the userLogin module: only `login`. -/
inductive UserLoginOp where
  | login
deriving DecidableEq

/-- The step relation of the userLogin module's exported operations. -/
def applyOp (op : UserLoginOp) (s : UserLoginState) : UserLoginState :=
  match op with
  | UserLoginOp.login => loginStep s

/-- The id generator nanoid, modelled as a counter: from generator state `g` it
returns a fresh identifier and the next state. -/
def nanoid (g : Nat) : Nat × Nat := (g, g + 1)

/-- The module-private state of ProvideInject2.ts: its generated key. -/
structure ThemeModule where
  key : Nat

/-- Module load of ProvideInject2.ts: `const key = nanoid()` runs once. -/
def loadThemeModule (g : Nat) : ThemeModule × Nat :=
  ((ThemeModule.mk (nanoid g).1), (nanoid g).2)

/-- The framework's `provide`: publish a key-value pair; descendants see it in
front of everything provided higher up (nearest provider first). -/
def provide (k : Nat) (v : String) (ctx : List (Nat × String)) : List (Nat × String) :=
  (k, v) :: ctx

/-- The framework's `inject`: look the key up at the nearest providing ancestor,
returning undefined (none) when no ancestor provided it. -/
def inject (k : Nat) : List (Nat × String) → Option String
  | [] => none
  | p :: ps => if p.1 = k then some p.2 else inject k ps

/-- src/utils/ProvideInject2.ts: `provide(key, theme)` with the module key. -/
def provideTheme (m : ThemeModule) (theme : String) (ctx : List (Nat × String)) : List (Nat × String) :=
  provide m.key theme ctx

/-- src/utils/ProvideInject2.ts: `return inject(key)` with the module key. -/
def injectTheme (m : ThemeModule) (ctx : List (Nat × String)) : Option String :=
  inject m.key ctx

/-- The data/error pair surfaced by the external useSWR cache utility. -/
structure SWRResult (α : Type) where
  data : Option α
  error : Option String

/-- The module-private state of useMyUser.ts: its generated key. -/
structure UseMyUserModule where
  key : Nat

/-- Module load of useMyUser.ts: `const key = nanoid()` runs once. -/
def loadUseMyUser (g : Nat) : UseMyUserModule × Nat :=
  ((UseMyUserModule.mk (nanoid g).1), (nanoid g).2)

/-- One invocation of useSWR made by useMyUser: the key and the fetcher passed. -/
structure UserCall where
  key : Nat
  fetcher : Async User

/-- The pair returned by useMyUser: useSWR's data renamed to user, and its error. -/
structure UserView where
  user : Option User
  error : Option String

/-- src/utils/useMyUser.ts: `const { data: user, error } = useSWR(key, fetchMyUser);
return { user, error }`. The embedding also returns the list of useSWR invocations
the body makes, one entry per call in the source. -/
def useMyUser (m : UseMyUserModule) (useSWR : Nat → Async User → SWRResult User) :
    UserView × List UserCall :=
  let r := useSWR m.key fetchMyUser
  ({ user := r.data, error := r.error }, [{ key := m.key, fetcher := fetchMyUser }])

/-- A Vue ref: a holder of a current value (useProduct receives a `Ref<number>`). -/
structure Ref (α : Type) where
  value : α

/-- The module-private state of useProduct.ts: its generated uniqueKey. -/
structure UseProductModule where
  uniqueKey : Nat

/-- Module load of useProduct.ts: `const uniqueKey = nanoid()` runs once. -/
def loadUseProduct (g : Nat) : UseProductModule × Nat :=
  ((UseProductModule.mk (nanoid g).1), (nanoid g).2)

/-- The fetcher useProduct passes to useSWR: `(_, productId) => fetchProduct(productId)`.
It receives the key components with the ref unwrapped to its number. -/
def useProductFetcher : Nat × Int → Async Product :=
  fun kp => fetchProduct kp.2

/-- One invocation of useSWR made by useProduct: the combined key
`[uniqueKey, productIdRef]` and the fetcher passed. -/
structure ProductCall where
  key : Nat × Ref Int
  fetcher : Nat × Int → Async Product

/-- The pair returned by useProduct: useSWR's data renamed to product, and its error. -/
structure ProductView where
  product : Option Product
  error : Option String

/-- src/utils/useProduct.ts: `const key = [uniqueKey, productIdRef];
const { data: product, error } = useSWR(key, (_, productId) => fetchProduct(productId));
return { product, error }`. The embedding also returns the list of useSWR
invocations the body makes, one entry per call in the source. -/
def useProduct (m : UseProductModule)
    (useSWR : Nat × Ref Int → (Nat × Int → Async Product) → SWRResult Product)
    (productIdRef : Ref Int) : ProductView × List ProductCall :=
  let key := (m.uniqueKey, productIdRef)
  let r := useSWR key useProductFetcher
  ({ product := r.data, error := r.error }, [{ key := key, fetcher := useProductFetcher }])

/-- Syntactic summary of one exported function body: which external primitives the
body as written invokes (provide or inject; useSWR; an assignment to a ref's value;
a direct `await delay(...)`), and whether the body contains any conditional or
loop, any retry, or any locally written error handling (try/catch or error
construction). -/
structure FnSummary where
  forwardsToBroadcast : Bool
  forwardsToCache : Bool
  assignsReactiveCell : Bool
  bodyAwaitsDelay : Bool
  hasBranching : Bool
  hasRetry : Bool
  hasLocalErrorHandling : Bool
deriving DecidableEq

/-- The seven functions exported by the repository's utility modules. -/
inductive RepoFun where
  | provideTheme
  | injectTheme
  | useProduct
  | useMyUser
  | login
  | fetchProduct
  | fetchMyUser
deriving DecidableEq

/-- The per-function summary read off the source bodies: provideTheme forwards to
provide, injectTheme forwards to inject, useProduct and useMyUser invoke useSWR,
login assigns loggedInUser.value, and the two fetch functions await delay(1000)
and build an object literal; no body contains a conditional, loop, retry, or
try/catch. -/
def summary : RepoFun → FnSummary
  | RepoFun.provideTheme => ⟨true, false, false, false, false, false, false⟩
  | RepoFun.injectTheme => ⟨true, false, false, false, false, false, false⟩
  | RepoFun.useProduct => ⟨false, true, false, false, false, false, false⟩
  | RepoFun.useMyUser => ⟨false, true, false, false, false, false, false⟩
  | RepoFun.login => ⟨false, false, true, false, false, false, false⟩
  | RepoFun.fetchProduct => ⟨false, false, false, true, false, false, false⟩
  | RepoFun.fetchMyUser => ⟨false, false, false, true, false, false, false⟩

/-- How many of the three spec categories (broadcast forward, cache forward,
reactive-cell assignment) a function falls into. -/
def abcCount (f : RepoFun) : Nat :=
  (if (summary f).forwardsToBroadcast then 1 else 0) +
  (if (summary f).forwardsToCache then 1 else 0) +
  (if (summary f).assignsReactiveCell then 1 else 0)

/-- A function does exactly one of the three spec categories. -/
def doesExactlyOneOfABC (f : RepoFun) : Bool := abcCount f == 1

/-- Claim C1: for every data/error pair produced by the external useSWR utility,
useMyUser returns the error field unchanged (renaming data to user) and
useProduct returns the error field unchanged (renaming data to product); neither
hook transforms, filters, or replaces the error value. -/
theorem claim1_error_passthrough :
    ∀ (m : UseMyUserModule) (swrU : Nat → Async User → SWRResult User)
      (mp : UseProductModule)
      (swrP : Nat × Ref Int → (Nat × Int → Async Product) → SWRResult Product)
      (productIdRef : Ref Int),
      (useMyUser m swrU).1.error = (swrU m.key fetchMyUser).error ∧
      (useMyUser m swrU).1.user = (swrU m.key fetchMyUser).data ∧
      (useProduct mp swrP productIdRef).1.error =
        (swrP (mp.uniqueKey, productIdRef) useProductFetcher).error ∧
      (useProduct mp swrP productIdRef).1.product =
        (swrP (mp.uniqueKey, productIdRef) useProductFetcher).data := by
  intro m swrU mp swrP productIdRef
  exact ⟨rfl, rfl, rfl, rfl⟩

/-- Claim C2: for every theme t, if an ancestor calls provideTheme t and a
descendant calls injectTheme, with anything provided in between under keys other
than the module-private theme key, injectTheme returns some t. -/
theorem claim2_provide_inject_roundtrip :
    ∀ (m : ThemeModule) (t : String) (ctx between : List (Nat × String)),
      (∀ p ∈ between, p.1 ≠ m.key) →
      injectTheme m (between ++ provideTheme m t ctx) = some t := by
  intro m t ctx between h
  induction between with
  | nil => simp [injectTheme, inject, provideTheme, provide]
  | cons p ps ih =>
    have hp : p.1 ≠ m.key := h p (List.mem_cons_self p ps)
    have hps : ∀ q ∈ ps, q.1 ≠ m.key := fun q hq => h q (List.mem_cons_of_mem p hq)
    simpa [injectTheme, inject, hp] using ih hps

/-- Witness for claim C2 at a concrete module key, theme and in-between provide. -/
theorem claim2_witness :
    (∀ p ∈ [((1 : Nat), "x")], p.1 ≠ (ThemeModule.mk 0).key) ∧
    injectTheme (ThemeModule.mk 0) ([((1 : Nat), "x")] ++ provideTheme (ThemeModule.mk 0) "dark" []) = some "dark" :=
  ⟨by decide, claim2_provide_inject_roundtrip (ThemeModule.mk 0) "dark" [] [(1, "x")] (by decide)⟩

/-- Claim C3: for every productId, fetchProduct awaits a simulated delay of
1000 ms exactly once and resolves to the object with that productId and name
"Super Product #" followed by the id; and among the repository's functions only
fetchProduct and fetchMyUser contain such a direct simulated delay. -/
theorem claim3_fetchProduct_delay_and_value :
    ∀ productId : Int,
      delaysOf (fetchProduct productId) = [1000] ∧
      (fetchProduct productId).outcome =
        Except.ok { productId := productId, productName := "Super Product #" ++ toString productId } ∧
      (∀ f : RepoFun,
        (summary f).bodyAwaitsDelay = true ↔ (f = RepoFun.fetchProduct ∨ f = RepoFun.fetchMyUser)) := by
  intro productId
  refine ⟨rfl, rfl, ?_⟩
  intro f
  cases f <;> simp [summary]

/-- Claim C4 is false as stated: fetchProduct is an exported function of the
repository doing none of (a) broadcast forward, (b) cache forward, (c)
reactive-cell assignment. -/
theorem claim4_counterexample :
    doesExactlyOneOfABC RepoFun.fetchProduct = false ∧
    ¬ (∀ f : RepoFun, doesExactlyOneOfABC f = true) :=
  ⟨by decide, fun h => absurd (h RepoFun.fetchProduct) (by decide)⟩

/-- Claim C4 (amended): every exported function other than fetchProduct and
fetchMyUser does exactly one of (a) broadcast forward, (b) cache forward, (c)
reactive-cell assignment; fetchProduct and fetchMyUser do none of the three and
instead await a simulated delay; and no exported function involves branching
logic, retries, or locally implemented error handling. -/
theorem claim4_amended_classification :
    ∀ f : RepoFun,
      ((f = RepoFun.fetchProduct ∨ f = RepoFun.fetchMyUser) →
        doesExactlyOneOfABC f = false ∧ (summary f).bodyAwaitsDelay = true) ∧
      ((f ≠ RepoFun.fetchProduct ∧ f ≠ RepoFun.fetchMyUser) →
        doesExactlyOneOfABC f = true) ∧
      (summary f).hasBranching = false ∧
      (summary f).hasRetry = false ∧
      (summary f).hasLocalErrorHandling = false := by
  intro f
  cases f <;> exact ⟨by decide, by decide, rfl, rfl, rfl⟩

/-- Witness for the amended claim C4 at the concrete function fetchProduct. -/
theorem claim4_witness :
    (RepoFun.fetchProduct = RepoFun.fetchProduct ∨ RepoFun.fetchProduct = RepoFun.fetchMyUser) ∧
    (doesExactlyOneOfABC RepoFun.fetchProduct = false ∧
      (summary RepoFun.fetchProduct).bodyAwaitsDelay = true) :=
  ⟨Or.inl rfl, (claim4_amended_classification RepoFun.fetchProduct).1 (Or.inl rfl)⟩

/-- Claim C5: isLoggedIn always equals the test that loggedInUser.value is not
undefined: it is false in the initial state, and after the only mutating
operation login the stored user is the fetched object and isLoggedIn is true. -/
theorem claim5_isLoggedIn_equals_defined :
    (initialUserLoginState.loggedInUser = none ∧ isLoggedIn initialUserLoginState = false) ∧
    (∀ s : UserLoginState, isLoggedIn s = true ↔ s.loggedInUser ≠ none) ∧
    (∀ s : UserLoginState,
      (loginStep s).loggedInUser = some { username := "Super USER!" } ∧
      isLoggedIn (loginStep s) = true) := by
  refine ⟨⟨rfl, rfl⟩, ?_, ?_⟩
  · intro s
    simp [isLoggedIn]
  · intro s
    exact ⟨rfl, rfl⟩

/-- Claim C6: each hook module draws its key from the generator exactly once at
module load, and every call of useMyUser passes that same module key to useSWR,
while every call of useProduct passes a key whose first component is the module
constant uniqueKey — the addressed slot never changes across calls. -/
theorem claim6_key_generated_once :
    ∀ g : Nat,
      (loadUseMyUser g).2 = g + 1 ∧
      (∀ swrU : Nat → Async User → SWRResult User,
        (useMyUser (loadUseMyUser g).1 swrU).2 =
          [{ key := (loadUseMyUser g).1.key, fetcher := fetchMyUser }]) ∧
      (loadUseProduct g).2 = g + 1 ∧
      (∀ (swrP : Nat × Ref Int → (Nat × Int → Async Product) → SWRResult Product)
         (productIdRef : Ref Int),
        (useProduct (loadUseProduct g).1 swrP productIdRef).2 =
          [{ key := ((loadUseProduct g).1.uniqueKey, productIdRef),
             fetcher := useProductFetcher }]) := by
  intro g
  exact ⟨rfl, fun _ => rfl, rfl, fun _ _ => rfl⟩

/-- Claim C7: useProduct invokes the external useSWR exactly once, with the key
combining the module uniqueKey and the product id ref, and a fetcher sending any
pair to fetchProduct of its second component; the data/error result is returned
unmodified as product/error. -/
theorem claim7_useProduct_delegates :
    ∀ (m : UseProductModule)
      (swrP : Nat × Ref Int → (Nat × Int → Async Product) → SWRResult Product)
      (productIdRef : Ref Int),
      ((useProduct m swrP productIdRef).2).length = 1 ∧
      (useProduct m swrP productIdRef).2 =
        [{ key := (m.uniqueKey, productIdRef), fetcher := useProductFetcher }] ∧
      (∀ (x : Nat) (productId : Int), useProductFetcher (x, productId) = fetchProduct productId) ∧
      (useProduct m swrP productIdRef).1 =
        { product := (swrP (m.uniqueKey, productIdRef) useProductFetcher).data,
          error := (swrP (m.uniqueKey, productIdRef) useProductFetcher).error } := by
  intro m swrP productIdRef
  exact ⟨rfl, rfl, fun _ _ => rfl, rfl⟩

/-- Claim C8: fetchMyUser is a fixed computation: it logs, waits 1000 ms, and
always resolves to the object with username "Super USER!" — in particular it
never rejects and never resolves to undefined. -/
theorem claim8_fetchMyUser_constant :
    fetchMyUser.outcome = Except.ok { username := "Super USER!" } ∧
    fetchMyUser = { events := [AsyncEvent.log "fetchMyUser", AsyncEvent.wait 1000],
                    outcome := Except.ok { username := "Super USER!" } } :=
  ⟨rfl, rfl⟩

/-- Claim C9: under the step relation of the userLogin module's exported
operations, isLoggedIn never goes from true to false; a resolved login leaves
isLoggedIn true; and no operation stores undefined back into loggedInUser. -/
theorem claim9_isLoggedIn_monotone :
    (∀ (op : UserLoginOp) (s : UserLoginState),
      isLoggedIn s = true → isLoggedIn (applyOp op s) = true) ∧
    (∀ s : UserLoginState, isLoggedIn (applyOp UserLoginOp.login s) = true) ∧
    (∀ (op : UserLoginOp) (s : UserLoginState),
      (applyOp op s).loggedInUser = some { username := "Super USER!" }) := by
  refine ⟨?_, ?_, ?_⟩
  · intro op s _
    cases op
    rfl
  · intro s
    rfl
  · intro op s
    cases op
    rfl

/-- Witness for claim C9 at a concrete logged-in state. -/
theorem claim9_witness :
    isLoggedIn (UserLoginState.mk (some (User.mk "Super USER!"))) = true ∧
    isLoggedIn (applyOp UserLoginOp.login (UserLoginState.mk (some (User.mk "Super USER!")))) = true :=
  ⟨by decide,
    claim9_isLoggedIn_monotone.1 UserLoginOp.login (UserLoginState.mk (some (User.mk "Super USER!"))) (by decide)⟩

/-- Claim C10: when no ancestor provided under the module theme key, injectTheme
returns none (undefined) rather than throwing, so the absent-theme case is
always distinguishable by an undefined check. -/
theorem claim10_injectTheme_absent :
    ∀ (m : ThemeModule) (ctx : List (Nat × String)),
      (∀ p ∈ ctx, p.1 ≠ m.key) → injectTheme m ctx = none := by
  intro m ctx h
  induction ctx with
  | nil => rfl
  | cons p ps ih =>
    have hp : p.1 ≠ m.key := h p (List.mem_cons_self p ps)
    have hps : ∀ q ∈ ps, q.1 ≠ m.key := fun q hq => h q (List.mem_cons_of_mem p hq)
    simpa [injectTheme, inject, hp] using ih hps

/-- Witness for claim C10 at a concrete context providing only under another key. -/
theorem claim10_witness :
    (∀ p ∈ [((3 : Nat), "light")], p.1 ≠ (ThemeModule.mk 7).key) ∧
    injectTheme (ThemeModule.mk 7) [((3 : Nat), "light")] = none :=
  ⟨by decide, claim10_injectTheme_absent (ThemeModule.mk 7) [(3, "light")] (by decide)⟩

end StateMgmt
